import Mathlib

/-!
Shallow embedding of `src/movie_fixer.py` (class `MovieFixer`).

Modelling conventions:
* File paths are strings, assumed already resolved to absolute form
  (`Path(p).resolve()` is the identity in the model).
* The filesystem is a partial map from path to `FileData`
  (content bytes modelled as a `String`, plus owner id, group id, mode bits).
* Every external interaction of one `process_file` call (the ffmpeg
  subprocess, the patch-tool subprocess, `os.chown`/`os.chmod` outcomes,
  the ledger write, `time.time()`) is an oracle recorded in an `Env` value,
  so the code under test is a pure function of the environment and the
  starting state.
* Python exceptions are values of `PyError`; a `try`/`except` block is a
  `match` on the raising step, and an exception that escapes `process_file`
  is the `Outcome.raised` constructor.
-/

namespace MovieFixer

/-- Content and attributes of one file on disk.  `content` stands for the
byte string, `mode` for the full `st_mode` permission bits. -/
structure FileData where
  content : String
  uid : Nat
  gid : Nat
  mode : Nat
deriving DecidableEq, Repr

/-- The fields of `os.stat` that `movie_fixer.py` reads:
`st_uid`, `st_gid`, `st_mode`. -/
structure Stat where
  st_uid : Nat
  st_gid : Nat
  st_mode : Nat
deriving DecidableEq, Repr

/-- `os.stat(path)` on an existing file: project the attribute fields. -/
def statOf (fd : FileData) : Stat :=
  ⟨fd.uid, fd.gid, fd.mode⟩

/-- The filesystem: a partial map from absolute path to file data. -/
abbrev FS := String → Option FileData

/-- Write (create or overwrite) the file at path `p`. -/
def fsSet (fs : FS) (p : String) (fd : FileData) : FS :=
  fun q => if q = p then some fd else fs q

/-- `os.unlink p` / deletion of the file at path `p`. -/
def fsDel (fs : FS) (p : String) : FS :=
  fun q => if q = p then none else fs q

/-- Python exceptions that the script can raise or handle. -/
inductive PyError
  | calledProcessError (returncode : Int)
  | exceptionMsg (msg : String)
  | unboundLocalError (name : String)
  | permissionError
  | fileNotFoundError
  | unicodeDecodeError
  | jsonDecodeError
deriving DecidableEq, Repr

/-- One ledger entry (the `file_info` dict built in `process_file`). -/
structure FileInfo where
  original_file : String
  patch_file : String
  patch_tool : String
  timestamp : Nat
deriving DecidableEq, Repr

/-- `self.processed_files`: a dict from absolute original path to its
`FileInfo`, modelled as an association list. -/
abbrev Ledger := List (String × FileInfo)

/-- `file_key in self.processed_files`. -/
def ledgerContains (l : Ledger) (k : String) : Bool :=
  l.any (fun e => e.1 = k)

/-- `self.processed_files[file_key] = file_info` (dict assignment:
replace the binding if the key is present, append otherwise). -/
def ledgerSet (l : Ledger) (k : String) (v : FileInfo) : Ledger :=
  if ledgerContains l k then l.map (fun e => if e.1 = k then (k, v) else e)
  else l ++ [(k, v)]

/-- `stat.S_IRUSR`. -/
def S_IRUSR : Nat := 256
/-- `stat.S_IWUSR`. -/
def S_IWUSR : Nat := 128
/-- `stat.S_IRGRP`. -/
def S_IRGRP : Nat := 32
/-- `stat.S_IWGRP`. -/
def S_IWGRP : Nat := 16
/-- `stat.S_IROTH`. -/
def S_IROTH : Nat := 4
/-- `stat.S_IWOTH`. -/
def S_IWOTH : Nat := 2

/-- The read/write-only permission mask used by `copy_file_attributes`
(line 265): `S_IRUSR|S_IWUSR|S_IRGRP|S_IWGRP|S_IROTH|S_IWOTH = 0o666`. -/
def rwMask : Nat := S_IRUSR ||| S_IWUSR ||| S_IRGRP ||| S_IWGRP ||| S_IROTH ||| S_IWOTH

/-- How the ffmpeg child process ended: `process.wait(timeout=300)`
either returns an exit code or raises `subprocess.TimeoutExpired`. -/
inductive FfmpegExit
  | exited (code : Int)
  | timedOut
deriving DecidableEq, Repr

/-- Oracle for every external interaction of one `process_file` call. -/
structure Env where
  /-- Content ffmpeg wrote to the temporary output path
  (`none` = it never created the file). -/
  ffmpegWrites : Option String
  /-- How the ffmpeg child ended. -/
  ffmpegExit : FfmpegExit
  /-- Exit code of the patch-tool subprocess (`result.returncode`). -/
  toolExit : Int
  /-- Content bsdiff/xdelta3 wrote to the patch path before exiting
  (`none` = the tool never created the file). -/
  toolWrites : Option String
  /-- Captured standard output of the `diff` subprocess. -/
  diffStdout : String
  /-- Owner id given to files created by this process or its children. -/
  newUid : Nat
  /-- Group id given to files created by this process or its children. -/
  newGid : Nat
  /-- Mode bits given to files created by this process or its children. -/
  newMode : Nat
  /-- `some e` when `os.chown`/`os.chmod` raises exception `e`
  (for instance `PyError.permissionError`); `none` when both succeed. -/
  chownFail : Option PyError
  /-- Whether writing the ledger file in `save_processed_files` succeeds. -/
  saveOk : Bool
  /-- `int(time.time())` / `time.time()` during this call. -/
  timestamp : Nat
deriving Repr

/-- `copy_file_attributes(dst_path, original_stat)` (lines 250-275):
`os.chown(dst, st_uid, st_gid)` followed by `os.chmod(dst, mode & 0o666)`.
Both `except` clauses log and re-raise, so any OS failure propagates to
the caller unchanged. -/
def copy_file_attributes (env : Env) (fs : FS) (dst_path : String)
    (original_stat : Stat) : Except PyError FS :=
  match fs dst_path with
  | none => Except.error PyError.fileNotFoundError
  | some fd =>
    match env.chownFail with
    | some e => Except.error e
    | none =>
      let perms := Nat.land original_stat.st_mode rwMask
      Except.ok (fsSet fs dst_path ⟨fd.content, original_stat.st_uid, original_stat.st_gid, perms⟩)

/-- `Path(p).name`: the part of the path after the final slash. -/
def fileName (p : String) : String :=
  String.mk ((p.toList.reverse.takeWhile (fun c => c ≠ '/')).reverse)

/-- `name.rfind('.')`: index of the last dot, if any. -/
def rfindDot (name : String) : Option Nat :=
  match List.findIdx? (fun c => c = '.') name.toList.reverse with
  | none => none
  | some j => some (name.toList.length - 1 - j)

/-- `Path(p).suffix` (CPython: `i = name.rfind('.')`; the suffix is
`name[i:]` when `0 < i < len(name) - 1`, otherwise empty). -/
def pathSuffix (p : String) : String :=
  let name := fileName p
  match rfindDot name with
  | some i =>
    if 0 < i ∧ i < name.toList.length - 1 then String.mk (name.toList.drop i) else ""
  | none => ""

/-- `file_path.with_suffix('.patched' + file_path.suffix)` (line 168):
the temporary ffmpeg output path. -/
def with_patched_suffix (p : String) : String :=
  let suf := pathSuffix p
  (p.dropRight suf.length) ++ ".patched" ++ suf

/-- `str.lower()` on one character (ASCII range, which covers every
character a path suffix compared against `movie_extensions` can match). -/
def lowerChar (c : Char) : Char :=
  if 65 ≤ c.toNat ∧ c.toNat ≤ 90 then Char.ofNat (c.toNat + 32) else c

/-- `s.lower()`. -/
def lowerStr (s : String) : String :=
  String.mk (s.toList.map lowerChar)

/-- `self.movie_extensions` (line 37). -/
def movie_extensions : List String := [".mp4", ".mkv", ".avi", ".mov"]

/-- The extension gate of `process_file` (line 153):
`file_path.suffix.lower() not in self.movie_extensions` rejects. -/
def extension_ok (p : String) : Bool :=
  movie_extensions.contains (lowerStr (pathSuffix p))

/-- `'.patch' if self.patch_tool in ['bsdiff', 'xdelta3'] else '.diff'`
(line 92). -/
def patch_ext_for (patch_tool : String) : String :=
  if patch_tool = "bsdiff" ∨ patch_tool = "xdelta3" then ".patch" else ".diff"

/-- `f"{original_file}.{timestamp}{patch_ext}"` (line 93). -/
def patchFileName (original_file : String) (timestamp : Nat) (ext : String) : String :=
  original_file ++ "." ++ toString timestamp ++ ext

/-- One run of the patch-tool subprocess (lines 99-116).  Returns the
exception raised inside the `try` block (if any) together with the
filesystem after the tool's side effects.
* bsdiff / xdelta3: the opaque tool may have written the patch file
  before exiting; `check=True` raises `CalledProcessError` on a nonzero
  exit code.
* diff: output is captured, so nothing is written by the child;
  `returncode > 1` raises `CalledProcessError`, empty stdout raises
  `Exception("diff produced no output")`, otherwise stdout is written to
  the patch path (a fresh file owned by the current process). -/
def runPatchTool (env : Env) (patch_tool : String) (fs : FS)
    (patch_file : String) : Option PyError × FS :=
  if patch_tool = "bsdiff" ∨ patch_tool = "xdelta3" then
    let fs1 := match env.toolWrites with
      | some c => fsSet fs patch_file ⟨c, env.newUid, env.newGid, env.newMode⟩
      | none => fs
    if env.toolExit ≠ 0 then (some (PyError.calledProcessError env.toolExit), fs1)
    else (none, fs1)
  else
    if env.toolExit > 1 then (some (PyError.calledProcessError env.toolExit), fs)
    else if env.diffStdout = "" then (some (PyError.exceptionMsg "diff produced no output"), fs)
    else (none, fsSet fs patch_file ⟨env.diffStdout, env.newUid, env.newGid, env.newMode⟩)

/-- The `try` block of `generate_patch` (lines 97-135), reached after
the `os.stat` of line 95 succeeded.  Both `except` clauses return
`None`, so the body is total; it pairs the returned value with the
filesystem after all side effects — note that files written before a
caught exception stay on disk. -/
def generate_patch_body (env : Env) (patch_tool : String) (fs : FS)
    (original_stat : Stat) (patch_file : String) : Option String × FS :=
  match runPatchTool env patch_tool fs patch_file with
  | (some _, fs1) =>
    -- raised inside the try block; caught, logged, `return None`
    (none, fs1)
  | (none, fs1) =>
    -- line 119: verify the patch file exists and is nonempty
    match fs1 patch_file with
    | none => (none, fs1)
    | some pfd =>
      if pfd.content.length = 0 then (none, fs1)
      else
        -- line 123: stamp the patch with the original's attributes;
        -- a raise here is caught by `except Exception` and yields None
        match copy_file_attributes env fs1 patch_file original_stat with
        | Except.error _ => (none, fs1)
        | Except.ok fs2 => (some patch_file, fs2)

/-- `generate_patch(original_file, patched_file)` (lines 80-135).
`os.stat(original_file)` on line 95 sits before the `try` block, so a
missing original propagates an exception; everything inside the `try` is
caught by the two `except` clauses, which both return `None`. -/
def generate_patch (env : Env) (patch_tool : String) (fs : FS)
    (original_file patched_file : String) : Except PyError (Option String × FS) :=
  let patch_file := patchFileName original_file env.timestamp (patch_ext_for patch_tool)
  match fs original_file with
  | none => Except.error PyError.fileNotFoundError
  | some ofd =>
    Except.ok (generate_patch_body env patch_tool fs (statOf ofd) patch_file)

/-- Per-file processing state threaded through `process_file`:
the filesystem, the in-memory `self.processed_files` dict, and the last
ledger snapshot persisted by `save_processed_files` (`none` when the
ledger file has not been written during the modelled call). -/
structure PState where
  fs : FS
  processed_files : Ledger
  saved : Option Ledger

/-- How one `process_file` call ended. -/
inductive Outcome
  /-- Line 148: `file_key in self.processed_files`, returned early. -/
  | skippedAlreadyProcessed
  /-- Line 153: unsupported extension, returned silently. -/
  | skippedExtension
  /-- Line 159: group-id filter mismatch, returned with a log line. -/
  | skippedGid
  /-- Line 162: `os.stat` for the gid check raised; caught, returned. -/
  | statFailed
  /-- Lines 237-241: ffmpeg exited nonzero; `except CalledProcessError`
  cleaned up and returned normally. -/
  | ffmpegFailed
  /-- Lines 242-248: `except Exception` cleaned up and returned normally. -/
  | handledFailure
  /-- An exception escaped `process_file` into the caller. -/
  | raised (e : PyError)
  /-- Lines 213-235 all succeeded. -/
  | success
deriving DecidableEq, Repr

/-- The `except subprocess.CalledProcessError` handler (lines 237-241):
delete the temporary output if it exists, then return normally. -/
def exceptCPEHandler (fs : FS) (processed : Ledger) (saved : Option Ledger)
    (patched_file : String) : Outcome × PState :=
  let fs1 := if (fs patched_file).isSome then fsDel fs patched_file else fs
  (Outcome.ffmpegFailed, ⟨fs1, processed, saved⟩)

/-- The `except Exception` handler (lines 242-248): delete the temporary
output if it exists, then evaluate `if patch_file and os.path.exists(patch_file)`.
`patch_file` is a local of `process_file` first assigned on line 214, so
when the exception was raised before that line the name is unbound
(`patch_file = none` here) and the handler itself raises
`UnboundLocalError`, which escapes `process_file`.  When bound, a falsy
`None` skips the delete and a bound path is deleted if present. -/
def exceptAnyHandler (fs : FS) (processed : Ledger) (saved : Option Ledger)
    (patched_file : String) (patch_file : Option (Option String)) : Outcome × PState :=
  let fs1 := if (fs patched_file).isSome then fsDel fs patched_file else fs
  match patch_file with
  | none => (Outcome.raised (PyError.unboundLocalError "patch_file"), ⟨fs1, processed, saved⟩)
  | some none => (Outcome.handledFailure, ⟨fs1, processed, saved⟩)
  | some (some p) =>
    if (fs1 p).isSome then (Outcome.handledFailure, ⟨fsDel fs1 p, processed, saved⟩)
    else (Outcome.handledFailure, ⟨fs1, processed, saved⟩)

/-- The filesystem after the ffmpeg child has run (lines 187-202): the
child may have written the temporary output file. -/
def fsAfterFfmpeg (env : Env) (fs : FS) (patched_file : String) : FS :=
  match env.ffmpegWrites with
  | some c => fsSet fs patched_file ⟨c, env.newUid, env.newGid, env.newMode⟩
  | none => fs

/-- Lines 166-248 of `process_file`: the body reached once the three
eligibility gates have passed.  `fd` is the data of `file_path` on disk
(so `os.stat` on line 170 yields `statOf fd`). -/
def process_file_main (env : Env) (st : PState) (file_path : String)
    (fd : FileData) (patch_tool : String) : Outcome × PState :=
  let patched_file := with_patched_suffix file_path
  let original_stat := statOf fd
  let fs0 := fsAfterFfmpeg env st.fs patched_file
  match env.ffmpegExit with
  | FfmpegExit.timedOut =>
    -- line 209-211: kill the child and raise Exception("FFmpeg timed out ...");
    -- caught by `except Exception` with `patch_file` still unbound
    exceptAnyHandler fs0 st.processed_files st.saved patched_file none
  | FfmpegExit.exited code =>
    if code ≠ 0 then
      -- line 207-208: raise CalledProcessError(return_code, cmd, ...)
      exceptCPEHandler fs0 st.processed_files st.saved patched_file
    else
      -- line 214: patch_file = self.generate_patch(file_path, patched_file)
      match generate_patch env patch_tool fs0 file_path patched_file with
      | Except.error _ =>
        -- generate_patch itself raised before `patch_file` was assigned
        exceptAnyHandler fs0 st.processed_files st.saved patched_file none
      | Except.ok (none, fs1) =>
        -- line 216: raise Exception("Patch generation failed")
        exceptAnyHandler fs1 st.processed_files st.saved patched_file (some none)
      | Except.ok (some patch_file, fs1) =>
        -- line 219: os.unlink(file_path)
        match fs1 file_path with
        | none =>
          exceptAnyHandler fs1 st.processed_files st.saved patched_file (some (some patch_file))
        | some _ =>
          let fsU := fsDel fs1 file_path
          -- line 220: os.rename(patched_file, file_path)
          match fsU patched_file with
          | none =>
            exceptAnyHandler fsU st.processed_files st.saved patched_file (some (some patch_file))
          | some tmpfd =>
            let fs2 := fsSet (fsDel fsU patched_file) file_path tmpfd
            -- line 222: self.copy_file_attributes(file_path, original_stat)
            match copy_file_attributes env fs2 file_path original_stat with
            | Except.error _ =>
              exceptAnyHandler fs2 st.processed_files st.saved patched_file (some (some patch_file))
            | Except.ok fs3 =>
              -- lines 225-234: build file_info, update the dict, save
              let file_info : FileInfo := ⟨file_path, patch_file, patch_tool, env.timestamp⟩
              let processed1 := ledgerSet st.processed_files file_path file_info
              if env.saveOk then
                (Outcome.success, ⟨fs3, processed1, some processed1⟩)
              else
                -- save_processed_files raised; caught by `except Exception`
                exceptAnyHandler fs3 processed1 st.saved patched_file (some (some patch_file))

/-- The group-id filter test of lines 159-161:
`self.target_gid is not None and file_stat.st_gid != self.target_gid`. -/
def gidMismatch (target_gid : Option Nat) (fd : FileData) : Bool :=
  match target_gid with
  | some g => fd.gid != g
  | none => false

/-- `process_file(file_path)` (lines 137-248).  `target_gid` is
`self.target_gid`, `patch_tool` is `self.patch_tool`. -/
def process_file (env : Env) (st : PState) (file_path : String)
    (target_gid : Option Nat) (patch_tool : String) : Outcome × PState :=
  let file_key := file_path
  -- line 148: skip if already processed
  if ledgerContains st.processed_files file_key then
    (Outcome.skippedAlreadyProcessed, st)
  -- line 153: silently ignore unsupported extensions
  else if extension_ok file_path then
    -- lines 157-164: os.stat for the gid check, any failure caught
    match st.fs file_path with
    | none => (Outcome.statFailed, st)
    | some fd =>
      if gidMismatch target_gid fd then (Outcome.skippedGid, st)
      else process_file_main env st file_path fd patch_tool
  else (Outcome.skippedExtension, st)

/-- `run` (lines 277-290), restricted to the per-file loop: feed each
candidate path to `process_file` in order.  An exception escaping
`process_file` propagates out of `run` and aborts the remainder of the
walk, which the model records as `Except.error`. -/
def runFiles (env : Env) (target_gid : Option Nat) (patch_tool : String) :
    PState → List String → Except (PyError × PState) PState
  | st, [] => Except.ok st
  | st, p :: ps =>
    match process_file env st p target_gid patch_tool with
    | (Outcome.raised e, st1) => Except.error (e, st1)
    | (_, st1) => runFiles env target_gid patch_tool st1 ps

/-- The loop of `detect_patch_tool` (lines 51-55) over the candidate
list, with `which` standing for `shutil.which` resolvability. -/
def detectLoop (which : String → Bool) : List String → Except PyError String
  | [] => Except.error (PyError.exceptionMsg "No suitable patch tool found (bsdiff, xdelta3, or diff required)")
  | t :: ts => if which t then Except.ok t else detectLoop which ts

/-- `detect_patch_tool` (lines 41-55): first resolvable of
`['bsdiff', 'xdelta3', 'diff']`, else raise.  It runs inside `__init__`,
before `run` touches any file. -/
def detect_patch_tool (which : String → Bool) : Except PyError String :=
  detectLoop which ["bsdiff", "xdelta3", "diff"]

/-- Possible contents of the ledger backing file, as seen by
`open(self.data_file, 'r')` followed by `json.load`:
bytes that do not decode as text, text that is not valid JSON, or a
parsed JSON mapping. -/
inductive LedgerContent
  | bytesNotUtf8
  | textNotJson
  | jsonValue (d : Ledger)
deriving DecidableEq, Repr

/-- `json.load(f)`: invalid UTF-8 input raises `UnicodeDecodeError`
(a `ValueError` that is not a `json.JSONDecodeError`); undecodable JSON
text raises `json.JSONDecodeError`; otherwise the parsed value. -/
def json_load : LedgerContent → Except PyError Ledger
  | LedgerContent.bytesNotUtf8 => Except.error PyError.unicodeDecodeError
  | LedgerContent.textNotJson => Except.error PyError.jsonDecodeError
  | LedgerContent.jsonValue d => Except.ok d

/-- `load_processed_files` (lines 57-72).  `data_file` is `none` when
`self.data_file.exists()` is false.  The `try` block catches only
`json.JSONDecodeError`; any other exception from `json.load` propagates. -/
def load_processed_files (data_file : Option LedgerContent) : Except PyError Ledger :=
  match data_file with
  | none => Except.ok []
  | some c =>
    match json_load c with
    | Except.ok d => Except.ok d
    | Except.error PyError.jsonDecodeError => Except.ok []
    | Except.error e => Except.error e

/-- The value `generate_patch` returned, seen through its `Except`
wrapper: `none` when an exception escaped, `some r` when the function
returned `r` (`r = none` is Python's `return None`). -/
def gpResult (x : Except PyError (Option String × FS)) : Option (Option String) :=
  match x with
  | Except.ok r => some r.1
  | Except.error _ => none

/-- The filesystem after a `generate_patch` call, read at one path
(`none` when the call raised). -/
def gpFsAt (x : Except PyError (Option String × FS)) (q : String) : Option FileData :=
  match x with
  | Except.ok r => r.2 q
  | Except.error _ => none

/-! ### Basic lemmas about the filesystem and handler models -/

theorem fsSet_self (fs : FS) (p : String) (fd : FileData) : fsSet fs p fd p = some fd := by
  simp [fsSet]

theorem fsSet_other (fs : FS) (p q : String) (fd : FileData) (h : q ≠ p) :
    fsSet fs p fd q = fs q := by
  simp [fsSet, h]

theorem fsDel_self (fs : FS) (p : String) : fsDel fs p p = none := by
  simp [fsDel]

theorem fsDel_other (fs : FS) (p q : String) (h : q ≠ p) : fsDel fs p q = fs q := by
  simp [fsDel, h]

theorem fsAfterFfmpeg_other (env : Env) (fs : FS) (patched q : String) (h : q ≠ patched) :
    fsAfterFfmpeg env fs patched q = fs q := by
  unfold fsAfterFfmpeg
  cases env.ffmpegWrites with
  | none => rfl
  | some c => exact fsSet_other fs patched q _ h

/-- Both `except` handlers finish with the temporary output gone. -/
theorem exceptAnyHandler_patched_gone (fs : FS) (pr : Ledger) (sv : Option Ledger)
    (patched : String) (pf : Option (Option String)) :
    (exceptAnyHandler fs pr sv patched pf).2.fs patched = none := by
  have hfs1 : (if (fs patched).isSome then fsDel fs patched else fs) patched = none := by
    by_cases hex : (fs patched).isSome
    · simp [hex, fsDel_self]
    · rw [if_neg hex]
      exact Option.not_isSome_iff_eq_none.mp hex
  unfold exceptAnyHandler
  cases pf with
  | none => simpa using hfs1
  | some po =>
    cases po with
    | none => simpa using hfs1
    | some p =>
      by_cases hp : ((if (fs patched).isSome then fsDel fs patched else fs) p).isSome
      · simp only [hp, if_true]
        by_cases hqp : patched = p
        · subst hqp; simp [fsDel_self]
        · simpa [fsDel_other _ _ _ hqp] using hfs1
      · simpa [hp] using hfs1

/-- The `except Exception` handler touches nothing but the temporary
output and (when the bound local names one) the patch file. -/
theorem exceptAnyHandler_frame (fs : FS) (pr : Ledger) (sv : Option Ledger)
    (patched : String) (pf : Option (Option String)) (q : String)
    (hq : q ≠ patched) (hq2 : ∀ p, pf = some (some p) → q ≠ p) :
    (exceptAnyHandler fs pr sv patched pf).2.fs q = fs q := by
  have hfs1 : (if (fs patched).isSome then fsDel fs patched else fs) q = fs q := by
    by_cases hex : (fs patched).isSome
    · simp [hex, fsDel_other _ _ _ hq]
    · simp [hex]
  unfold exceptAnyHandler
  cases pf with
  | none => simpa using hfs1
  | some po =>
    cases po with
    | none => simpa using hfs1
    | some p =>
      have hqp : q ≠ p := hq2 p rfl
      by_cases hp : ((if (fs patched).isSome then fsDel fs patched else fs) p).isSome
      · simpa [hp, fsDel_other _ _ _ hqp] using hfs1
      · simpa [hp] using hfs1

/-- The `except Exception` handler does not mutate the in-memory ledger
nor persist it. -/
theorem exceptAnyHandler_ledger (fs : FS) (pr : Ledger) (sv : Option Ledger)
    (patched : String) (pf : Option (Option String)) :
    (exceptAnyHandler fs pr sv patched pf).2.processed_files = pr
    ∧ (exceptAnyHandler fs pr sv patched pf).2.saved = sv := by
  unfold exceptAnyHandler
  cases pf with
  | none => exact ⟨rfl, rfl⟩
  | some po =>
    cases po with
    | none => exact ⟨rfl, rfl⟩
    | some p =>
      by_cases hp : ((if (fs patched).isSome then fsDel fs patched else fs) p).isSome <;>
        simp [hp]

/-- The `except subprocess.CalledProcessError` handler: temporary output
gone, everything else untouched, normal return. -/
theorem exceptCPEHandler_spec (fs : FS) (pr : Ledger) (sv : Option Ledger)
    (patched : String) :
    (exceptCPEHandler fs pr sv patched).1 = Outcome.ffmpegFailed
    ∧ (exceptCPEHandler fs pr sv patched).2.fs patched = none
    ∧ (∀ q, q ≠ patched → (exceptCPEHandler fs pr sv patched).2.fs q = fs q)
    ∧ (exceptCPEHandler fs pr sv patched).2.processed_files = pr
    ∧ (exceptCPEHandler fs pr sv patched).2.saved = sv := by
  unfold exceptCPEHandler
  by_cases hex : (fs patched).isSome
  · refine ⟨rfl, by simp [hex, fsDel_self], fun q hq => by simp [hex, fsDel_other _ _ _ hq], rfl, rfl⟩
  · have hnone : fs patched = none := by
      cases h : fs patched with
      | none => rfl
      | some _ => rw [h] at hex; simp at hex
    exact ⟨rfl, by simp [hex, hnone], fun q hq => by simp [hex], rfl, rfl⟩

/-- `copy_file_attributes` touches no path other than its destination. -/
theorem copy_file_attributes_frame (env : Env) (fs : FS) (dst : String) (ostat : Stat)
    (fs2 : FS) (h : copy_file_attributes env fs dst ostat = Except.ok fs2)
    (q : String) (hq : q ≠ dst) : fs2 q = fs q := by
  unfold copy_file_attributes at h
  cases hd : fs dst with
  | none => rw [hd] at h; exact absurd h (by simp)
  | some fd =>
    rw [hd] at h
    cases hc : env.chownFail with
    | some e => rw [hc] at h; exact absurd h (by simp)
    | none =>
      rw [hc] at h
      have h2 := Except.ok.inj h
      rw [← h2, fsSet_other _ _ _ _ hq]

/-- The patch-tool subprocess writes (at most) the patch file. -/
theorem runPatchTool_frame (env : Env) (patch_tool : String) (fs : FS)
    (patch_file q : String) (hq : q ≠ patch_file) :
    (runPatchTool env patch_tool fs patch_file).2 q = fs q := by
  unfold runPatchTool
  by_cases hbx : patch_tool = "bsdiff" ∨ patch_tool = "xdelta3"
  · rw [if_pos hbx]
    cases hw : env.toolWrites with
    | none => by_cases hz : env.toolExit ≠ 0 <;> simp [hz]
    | some c => by_cases hz : env.toolExit ≠ 0 <;> simp [hz, fsSet_other _ _ _ _ hq]
  · rw [if_neg hbx]
    by_cases h1 : env.toolExit > 1
    · simp [h1]
    · by_cases h2 : env.diffStdout = "" <;> simp [h1, h2, fsSet_other _ _ _ _ hq]

/-- The `try` body of `generate_patch` touches no path other than the
patch file it names. -/
theorem generate_patch_body_frame (env : Env) (patch_tool : String) (fs : FS)
    (original_stat : Stat) (patch_file q : String) (hq : q ≠ patch_file) :
    (generate_patch_body env patch_tool fs original_stat patch_file).2 q = fs q := by
  have hfr := runPatchTool_frame env patch_tool fs patch_file q hq
  unfold generate_patch_body
  split
  next e fs1 heq =>
    rw [heq] at hfr; exact hfr
  next fs1 heq =>
    rw [heq] at hfr
    split
    next => exact hfr
    next pfd heq2 =>
      split
      next => exact hfr
      next =>
        split
        next e1 heq3 => exact hfr
        next fs2 heq3 =>
          dsimp only
          rw [copy_file_attributes_frame env fs1 patch_file original_stat fs2 heq3 q hq]
          exact hfr

/-- `generate_patch` touches no path other than the patch file it names. -/
theorem generate_patch_frame (env : Env) (patch_tool : String) (fs : FS)
    (original_file patched_file : String) (r : Option String) (fs1 : FS)
    (h : generate_patch env patch_tool fs original_file patched_file = Except.ok (r, fs1))
    (q : String)
    (hq : q ≠ patchFileName original_file env.timestamp (patch_ext_for patch_tool)) :
    fs1 q = fs q := by
  unfold generate_patch at h
  cases ho : fs original_file with
  | none => rw [ho] at h; exact absurd h (by simp)
  | some ofd =>
    rw [ho] at h
    have h2 := Except.ok.inj h
    have hfs1 : fs1 = (generate_patch_body env patch_tool fs (statOf ofd)
        (patchFileName original_file env.timestamp (patch_ext_for patch_tool))).2 := by
      rw [h2]
    rw [hfs1]
    exact generate_patch_body_frame env patch_tool fs (statOf ofd) _ q hq

/-- The `except Exception` handler either returns normally or raises
`UnboundLocalError` over the unassigned local `patch_file`. -/
theorem exceptAnyHandler_outcome (fs : FS) (pr : Ledger) (sv : Option Ledger)
    (patched : String) (pf : Option (Option String)) :
    (exceptAnyHandler fs pr sv patched pf).1 = Outcome.handledFailure
    ∨ (exceptAnyHandler fs pr sv patched pf).1
        = Outcome.raised (PyError.unboundLocalError "patch_file") := by
  unfold exceptAnyHandler
  cases pf with
  | none => exact Or.inr rfl
  | some po =>
    cases po with
    | none => exact Or.inl rfl
    | some p =>
      by_cases hp : ((if (fs patched).isSome then fsDel fs patched else fs) p).isSome <;>
        simp [hp]

/-- Once the three eligibility gates have passed, `process_file` never
reports an eligibility skip: the file was attempted. -/
theorem process_file_main_attempted (env : Env) (st : PState) (file_path : String)
    (fd : FileData) (patch_tool : String) :
    (process_file_main env st file_path fd patch_tool).1 ≠ Outcome.skippedExtension
    ∧ (process_file_main env st file_path fd patch_tool).1 ≠ Outcome.skippedAlreadyProcessed := by
  have hA : ∀ fs pr sv patched pf,
      (exceptAnyHandler fs pr sv patched pf).1 ≠ Outcome.skippedExtension
      ∧ (exceptAnyHandler fs pr sv patched pf).1 ≠ Outcome.skippedAlreadyProcessed := by
    intro fs pr sv patched pf
    rcases exceptAnyHandler_outcome fs pr sv patched pf with h | h <;> rw [h] <;>
      exact ⟨by simp, by simp⟩
  unfold process_file_main
  dsimp only
  repeat' split
  all_goals first
    | exact hA _ _ _ _ _
    | (rw [(exceptCPEHandler_spec _ _ _ _).1]; exact ⟨by simp, by simp⟩)
    | exact ⟨by simp, by simp⟩

/-- A path whose key is already in the ledger is skipped with the state
returned untouched (lines 148-150). -/
theorem process_file_skip (env : Env) (st : PState) (file_path : String)
    (target_gid : Option Nat) (patch_tool : String)
    (h : ledgerContains st.processed_files file_path = true) :
    process_file env st file_path target_gid patch_tool
      = (Outcome.skippedAlreadyProcessed, st) := by
  simp [process_file, h]

/-- Unfolding lemma for the walk loop. -/
theorem runFiles_cons (env : Env) (g : Option Nat) (t : String) (st : PState)
    (p : String) (ps : List String) :
    runFiles env g t st (p :: ps) =
      match process_file env st p g t with
      | (Outcome.raised e, st1) => Except.error (e, st1)
      | (_, st1) => runFiles env g t st1 ps := rfl

/-- A walk over paths that are all ledger keys changes nothing. -/
theorem runFiles_all_skipped (env : Env) (target_gid : Option Nat) (patch_tool : String)
    (st : PState) (ps : List String)
    (hps : ∀ p ∈ ps, ledgerContains st.processed_files p = true) :
    runFiles env target_gid patch_tool st ps = Except.ok st := by
  induction ps with
  | nil => rfl
  | cons p ps ih =>
    rw [runFiles_cons, process_file_skip env st p target_gid patch_tool (hps p (by simp))]
    exact ih (fun q hq => hps q (by simp [hq]))

/-! ### Claims -/

/-- Claim C5: patch-tool selection is deterministic with priority
bsdiff > xdelta3 > diff; when bsdiff resolves it is selected, otherwise
xdelta3 if it resolves, otherwise diff if it resolves, and when none of
the three resolves, `detect_patch_tool` fails with an error (raised from
`__init__`, before `run` touches any file). -/
theorem c5_tool_priority (which : String → Bool) :
    (which "bsdiff" = true → detect_patch_tool which = Except.ok "bsdiff")
    ∧ (which "bsdiff" = false → which "xdelta3" = true →
        detect_patch_tool which = Except.ok "xdelta3")
    ∧ (which "bsdiff" = false → which "xdelta3" = false → which "diff" = true →
        detect_patch_tool which = Except.ok "diff")
    ∧ (which "bsdiff" = false → which "xdelta3" = false → which "diff" = false →
        detect_patch_tool which = Except.error (PyError.exceptionMsg
          "No suitable patch tool found (bsdiff, xdelta3, or diff required)")) := by
  refine ⟨fun h1 => ?_, fun h1 h2 => ?_, fun h1 h2 h3 => ?_, fun h1 h2 h3 => ?_⟩ <;>
    simp [detect_patch_tool, detectLoop, *]

/-- Witness for C5: with bsdiff unavailable and xdelta3 and diff
available, xdelta3 is selected. -/
theorem c5_tool_priority_witness :
    detect_patch_tool (fun t => t == "xdelta3" || t == "diff") = Except.ok "xdelta3" :=
  (c5_tool_priority (fun t => t == "xdelta3" || t == "diff")).2.1 (by decide) (by decide)

/-- Claim C6: the claim states ledger loading never propagates a fatal
error for any backing-store state.  The code violates this: the `try`
block catches only `json.JSONDecodeError`, so a backing file whose raw
bytes cannot be decoded as text makes `json.load` raise
`UnicodeDecodeError`, which propagates out of `load_processed_files`
(contradicting the function's own docstring, "empty if file doesn't
exist or is corrupted").  The missing-file and invalid-JSON states do
fail soft, as the claim says. -/
theorem c6_load_propagates_unicode_error :
    load_processed_files (some LedgerContent.bytesNotUtf8)
      = Except.error PyError.unicodeDecodeError
    ∧ load_processed_files none = Except.ok []
    ∧ load_processed_files (some LedgerContent.textNotJson) = Except.ok [] :=
  ⟨rfl, rfl, rfl⟩

/-- Claim C2: a file whose resolved path is a ledger key is skipped
before any tool runs and the state is returned untouched, so a second
run over paths that are all ledger keys performs no filesystem and no
ledger mutation. -/
theorem c2_rerun_is_noop (env : Env) (st : PState) (target_gid : Option Nat)
    (patch_tool : String) (file_path : String) (ps : List String)
    (h : ledgerContains st.processed_files file_path = true)
    (hps : ∀ p ∈ ps, ledgerContains st.processed_files p = true) :
    process_file env st file_path target_gid patch_tool
      = (Outcome.skippedAlreadyProcessed, st)
    ∧ runFiles env target_gid patch_tool st ps = Except.ok st :=
  ⟨process_file_skip env st file_path target_gid patch_tool h,
   runFiles_all_skipped env target_gid patch_tool st ps hps⟩

/-- Sample state for the C2 witness: one file on disk, already recorded
in the ledger. -/
def stC2 : PState :=
  ⟨fun q => if q = "/movies/a.mp4" then some ⟨"fixed-bytes", 1000, 1000, 420⟩ else none,
   [("/movies/a.mp4", ⟨"/movies/a.mp4", "/movies/a.mp4.5.patch", "bsdiff", 5⟩)], none⟩

/-- Sample environment for the C2 witness. -/
def envC2 : Env :=
  ⟨some "other", FfmpegExit.exited 0, 0, some "P", "", 0, 0, 420, none, true, 9⟩

/-- Witness for C2 at a concrete ledger and directory. -/
theorem c2_rerun_is_noop_witness :
    process_file envC2 stC2 "/movies/a.mp4" none "bsdiff"
      = (Outcome.skippedAlreadyProcessed, stC2)
    ∧ runFiles envC2 none "bsdiff" stC2 ["/movies/a.mp4"] = Except.ok stC2 :=
  c2_rerun_is_noop envC2 stC2 none "bsdiff" "/movies/a.mp4" ["/movies/a.mp4"]
    (by decide) (by decide)

/-- Claim C10: the extension gate lower-cases the suffix before
comparing it with the supported set, so a path whose lower-cased suffix
is a movie extension — for instance an upper-case `.MP4` — is eligible:
`process_file` does not reject it at the extension (or ledger) gate. -/
theorem c10_extension_case_insensitive (env : Env) (st : PState) (file_path : String)
    (target_gid : Option Nat) (patch_tool : String)
    (hnotproc : ledgerContains st.processed_files file_path = false)
    (hext : movie_extensions.contains (lowerStr (pathSuffix file_path)) = true) :
    extension_ok file_path = true
    ∧ (process_file env st file_path target_gid patch_tool).1 ≠ Outcome.skippedExtension := by
  have he : extension_ok file_path = true := hext
  refine ⟨he, ?_⟩
  simp only [process_file, hnotproc, he, Bool.false_eq_true, if_false, if_true]
  split
  · simp
  · split
    · simp
    · exact (process_file_main_attempted env st file_path _ patch_tool).1

/-- Sample state for the C10 witness: an upper-case `.MP4` file. -/
def stC10 : PState :=
  ⟨fun q => if q = "/movies/VIDEO.MP4" then some ⟨"orig-bytes", 1000, 1000, 493⟩ else none,
   [], none⟩

/-- Witness for C10: `/movies/VIDEO.MP4` passes the extension gate. -/
theorem c10_extension_case_insensitive_witness :
    extension_ok "/movies/VIDEO.MP4" = true
    ∧ (process_file envC2 stC10 "/movies/VIDEO.MP4" none "bsdiff").1
        ≠ Outcome.skippedExtension :=
  c10_extension_case_insensitive envC2 stC10 "/movies/VIDEO.MP4" none "bsdiff"
    (by decide) (by decide)

/-- Environment for C1: ffmpeg exceeds its 300-second timeout after
writing partial output. -/
def envC1 : Env :=
  ⟨some "partial-output", FfmpegExit.timedOut, 0, none, "", 0, 0, 420, none, true, 5⟩

/-- State for C1: one eligible, unprocessed movie file. -/
def stC1 : PState :=
  ⟨fun q => if q = "/movies/a.mp4" then some ⟨"orig-bytes", 1000, 1000, 493⟩ else none,
   [], none⟩

/-- Claim C1: the claim states every per-file failure is caught inside
`process_file`, which returns normally so the run continues.  The code
violates this: on an ffmpeg timeout the `except Exception` handler
evaluates `if patch_file and os.path.exists(patch_file)` (line 247), but
the local `patch_file` is only assigned on line 214, after the timeout
was raised — so the handler itself raises `UnboundLocalError`, which
escapes `process_file` and aborts the directory walk.  This theorem
evaluates the embedded code at such an input: the timeout failure
escapes, and the walk never reaches the next candidate file. -/
theorem c1_timeout_escapes_process_file :
    (process_file envC1 stC1 "/movies/a.mp4" none "bsdiff").1
      = Outcome.raised (PyError.unboundLocalError "patch_file")
    ∧ ∀ st2, runFiles envC1 none "bsdiff" stC1 ["/movies/a.mp4", "/movies/b.mp4"]
        ≠ Except.ok st2 := by
  have h0 : (process_file envC1 stC1 "/movies/a.mp4" none "bsdiff").1
      = Outcome.raised (PyError.unboundLocalError "patch_file") := by decide
  refine ⟨h0, fun st2 => ?_⟩
  rcases hpf : process_file envC1 stC1 "/movies/a.mp4" none "bsdiff" with ⟨o, st1⟩
  have h1 : o = Outcome.raised (PyError.unboundLocalError "patch_file") := by
    rw [hpf] at h0; exact h0
  subst h1
  rw [runFiles_cons, hpf]
  simp

/-- Claim C3: when the re-muxing subprocess exits nonzero or is killed
on timeout, the original file (content and attributes) is unchanged, the
temporary `.patched` output is gone, no other path was touched (so no
patch artifact exists), and the ledger is neither updated in memory nor
persisted.  (On the timeout branch these facts hold at the moment
`process_file` terminates, although there it terminates by the escaping
exception recorded under C1 rather than by a normal return.) -/
theorem c3_transform_failure_is_noop (env : Env) (st : PState) (file_path : String)
    (target_gid : Option Nat) (patch_tool : String) (fd : FileData)
    (hfail : env.ffmpegExit = FfmpegExit.timedOut
      ∨ ∃ c, env.ffmpegExit = FfmpegExit.exited c ∧ c ≠ 0)
    (hnotproc : ledgerContains st.processed_files file_path = false)
    (hext : extension_ok file_path = true)
    (hdisk : st.fs file_path = some fd)
    (hgid : ∀ g, target_gid = some g → fd.gid = g)
    (hne : file_path ≠ with_patched_suffix file_path) :
    (process_file env st file_path target_gid patch_tool).2.fs file_path = st.fs file_path
    ∧ (process_file env st file_path target_gid patch_tool).2.fs
        (with_patched_suffix file_path) = none
    ∧ (∀ q, q ≠ with_patched_suffix file_path →
        (process_file env st file_path target_gid patch_tool).2.fs q = st.fs q)
    ∧ (process_file env st file_path target_gid patch_tool).2.processed_files
        = st.processed_files
    ∧ (process_file env st file_path target_gid patch_tool).2.saved = st.saved := by
  have hgm : gidMismatch target_gid fd = false := by
    cases target_gid with
    | none => rfl
    | some g => simp [gidMismatch, hgid g rfl]
  have hred : process_file env st file_path target_gid patch_tool
      = process_file_main env st file_path fd patch_tool := by
    simp [process_file, hnotproc, hext, hdisk, hgm]
  rw [hred]
  unfold process_file_main
  dsimp only
  split
  · -- ffmpeg timed out: the except-Exception handler runs (and raises)
    refine ⟨?_, exceptAnyHandler_patched_gone _ _ _ _ _, ?_,
      (exceptAnyHandler_ledger _ _ _ _ _).1, (exceptAnyHandler_ledger _ _ _ _ _).2⟩
    · rw [exceptAnyHandler_frame _ _ _ _ _ _ hne (fun p hp => Option.noConfusion hp),
        fsAfterFfmpeg_other _ _ _ _ hne]
    · intro q hq
      rw [exceptAnyHandler_frame _ _ _ _ _ _ hq (fun p hp => Option.noConfusion hp),
        fsAfterFfmpeg_other _ _ _ _ hq]
  · -- ffmpeg exited; the exit code must be nonzero by hypothesis
    next code hE =>
    have hcz : ¬ code = 0 := by
      rcases hfail with hT | ⟨c, hC, hcz⟩
      · rw [hT] at hE; cases hE
      · rw [hC] at hE; injection hE with h1; rw [← h1]; exact hcz
    rw [if_pos hcz]
    obtain ⟨ho, hp, hframe, hpr, hsv⟩ := exceptCPEHandler_spec
      (fsAfterFfmpeg env st.fs (with_patched_suffix file_path)) st.processed_files st.saved
      (with_patched_suffix file_path)
    refine ⟨?_, hp, ?_, hpr, hsv⟩
    · rw [hframe file_path hne, fsAfterFfmpeg_other _ _ _ _ hne]
    · intro q hq
      rw [hframe q hq, fsAfterFfmpeg_other _ _ _ _ hq]

/-- Environment for the C3 witness: ffmpeg wrote partial output and
exited with code 1. -/
def envC3 : Env :=
  ⟨some "partial-output", FfmpegExit.exited 1, 0, none, "", 0, 0, 420, none, true, 5⟩

/-- State for the C3 witness: one eligible, unprocessed movie file. -/
def stC3 : PState :=
  ⟨fun q => if q = "/movies/a.mp4" then some ⟨"orig-bytes", 1000, 1000, 493⟩ else none,
   [], none⟩

/-- Witness for C3 at a concrete nonzero ffmpeg exit. -/
theorem c3_transform_failure_is_noop_witness :
    (process_file envC3 stC3 "/movies/a.mp4" none "bsdiff").2.fs "/movies/a.mp4"
        = stC3.fs "/movies/a.mp4"
    ∧ (process_file envC3 stC3 "/movies/a.mp4" none "bsdiff").2.fs
        (with_patched_suffix "/movies/a.mp4") = none
    ∧ (∀ q, q ≠ with_patched_suffix "/movies/a.mp4" →
        (process_file envC3 stC3 "/movies/a.mp4" none "bsdiff").2.fs q = stC3.fs q)
    ∧ (process_file envC3 stC3 "/movies/a.mp4" none "bsdiff").2.processed_files
        = stC3.processed_files
    ∧ (process_file envC3 stC3 "/movies/a.mp4" none "bsdiff").2.saved = stC3.saved :=
  c3_transform_failure_is_noop envC3 stC3 "/movies/a.mp4" none "bsdiff"
    ⟨"orig-bytes", 1000, 1000, 493⟩
    (Or.inr ⟨1, rfl, by decide⟩) (by decide) (by decide) (by decide)
    (fun g hg => Option.noConfusion hg) (by decide)

/-- Claim C7: with the diff tool, a subprocess exit code greater than 1
is a tool error (generation fails with None and nothing is written);
exit codes 0 and 1 are success codes, on which the subprocess's standard
output is written to the patch path — except that empty standard output
is itself treated as a generation failure (None, nothing written). -/
theorem c7_diff_exit_code_handling (env : Env) (fs : FS)
    (original_file patched_file : String) (ofd : FileData)
    (h : fs original_file = some ofd) :
    (env.toolExit > 1 →
      generate_patch env "diff" fs original_file patched_file = Except.ok (none, fs))
    ∧ (env.toolExit ≤ 1 → env.diffStdout = "" →
      generate_patch env "diff" fs original_file patched_file = Except.ok (none, fs))
    ∧ (env.toolExit ≤ 1 → env.diffStdout ≠ "" →
      Option.map FileData.content
        (gpFsAt (generate_patch env "diff" fs original_file patched_file)
          (patchFileName original_file env.timestamp ".diff"))
        = some env.diffStdout) := by
  have hext : patch_ext_for "diff" = ".diff" := by decide
  refine ⟨fun h1 => ?_, fun h1 h2 => ?_, fun h1 h2 => ?_⟩
  · have hgt : ¬ env.toolExit ≤ 1 := by omega
    simp [generate_patch, generate_patch_body, runPatchTool, h, h1]
  · have hle : ¬ env.toolExit > 1 := by omega
    simp [generate_patch, generate_patch_body, runPatchTool, h, hle, h2]
  · have hle : ¬ env.toolExit > 1 := by omega
    have hlen0 : ¬ env.diffStdout.length = 0 := by
      intro h0
      exact h2 (String.ext (List.length_eq_zero.mp h0))
    cases hcf : env.chownFail with
    | none =>
      simp [generate_patch, generate_patch_body, runPatchTool, gpFsAt,
        copy_file_attributes, h, hle, h2, hext, hcf, fsSet_self, hlen0]
    | some e =>
      simp [generate_patch, generate_patch_body, runPatchTool, gpFsAt,
        copy_file_attributes, h, hle, h2, hext, hcf, fsSet_self, hlen0]

/-- Environment for the C7 witness: diff exits 1 with nonempty output. -/
def envC7 : Env :=
  ⟨some "fixed-bytes", FfmpegExit.exited 0, 1, none, "DIFF-OUTPUT", 0, 0, 420, none, true, 5⟩

/-- Filesystem for the C7 and C8 witnesses. -/
def fsC7 : FS :=
  fun q => if q = "/movies/a.mp4" then some ⟨"orig-bytes", 1000, 1000, 493⟩
    else if q = "/movies/a.patched.mp4" then some ⟨"fixed-bytes", 0, 0, 420⟩ else none

/-- Witness for C7: exit code 1 with nonempty stdout writes the stdout
to the patch path. -/
theorem c7_diff_exit_code_handling_witness :
    Option.map FileData.content
      (gpFsAt (generate_patch envC7 "diff" fsC7 "/movies/a.mp4" "/movies/a.patched.mp4")
        (patchFileName "/movies/a.mp4" 5 ".diff"))
      = some "DIFF-OUTPUT" := by
  have h := (c7_diff_exit_code_handling envC7 fsC7 "/movies/a.mp4" "/movies/a.patched.mp4"
    ⟨"orig-bytes", 1000, 1000, 493⟩ (by decide)).2.2 (by decide) (by decide)
  exact h

/-- Claim C8: `generate_patch` returns a path only when the named patch
file exists with nonzero size, and on that success the patch file
carries the original's pre-captured owner id, group id and read/write
permission bits; every failure path instead returns the `None` signal
(the `gpResult ... = some (some p)` hypothesis states that the Python
function returned the value `p` rather than `None`). -/
theorem c8_generate_patch_success_postconditions (env : Env) (patch_tool : String)
    (fs : FS) (original_file patched_file : String) (ofd : FileData) (p : String)
    (h : fs original_file = some ofd)
    (hp : gpResult (generate_patch env patch_tool fs original_file patched_file)
      = some (some p)) :
    p = patchFileName original_file env.timestamp (patch_ext_for patch_tool)
    ∧ ∃ pfd, gpFsAt (generate_patch env patch_tool fs original_file patched_file) p
          = some pfd
        ∧ pfd.content.length ≠ 0
        ∧ pfd.uid = ofd.uid ∧ pfd.gid = ofd.gid
        ∧ pfd.mode = Nat.land ofd.mode rwMask := by
  have hgp : generate_patch env patch_tool fs original_file patched_file
      = Except.ok (generate_patch_body env patch_tool fs (statOf ofd)
          (patchFileName original_file env.timestamp (patch_ext_for patch_tool))) := by
    unfold generate_patch; rw [h]
  rw [hgp] at hp ⊢
  cases hbv : generate_patch_body env patch_tool fs (statOf ofd)
      (patchFileName original_file env.timestamp (patch_ext_for patch_tool)) with
  | mk r fsv =>
    rw [hbv] at hp
    simp only [gpResult] at hp
    have hr : r = some p := Option.some.inj hp
    rw [hr] at hbv
    unfold generate_patch_body at hbv
    split at hbv
    · exact absurd ((Prod.mk.injEq _ _ _ _).mp hbv).1 (by simp)
    · next fs1 heq =>
      split at hbv
      · exact absurd ((Prod.mk.injEq _ _ _ _).mp hbv).1 (by simp)
      · next pfd heq2 =>
        split at hbv
        · exact absurd ((Prod.mk.injEq _ _ _ _).mp hbv).1 (by simp)
        · next hlen =>
          split at hbv
          · exact absurd ((Prod.mk.injEq _ _ _ _).mp hbv).1 (by simp)
          · next fs2 heq3 =>
            obtain ⟨hbv1, hbv2⟩ := (Prod.mk.injEq _ _ _ _).mp hbv
            have hpeq : p = patchFileName original_file env.timestamp
                (patch_ext_for patch_tool) := (Option.some.inj hbv1).symm
            refine ⟨hpeq, ?_⟩
            -- invert the successful attribute copy
            unfold copy_file_attributes at heq3
            rw [heq2] at heq3
            cases hcf : env.chownFail with
            | some e => rw [hcf] at heq3; exact absurd heq3 (by simp)
            | none =>
              rw [hcf] at heq3
              have hfs2 := Except.ok.inj heq3
              refine ⟨⟨pfd.content, (statOf ofd).st_uid, (statOf ofd).st_gid,
                Nat.land (statOf ofd).st_mode rwMask⟩, ?_, hlen, rfl, rfl, rfl⟩
              simp only [gpFsAt]
              rw [← hbv2, ← hfs2, hpeq]
              exact fsSet_self _ _ _

/-- Environment for the C8 witness: bsdiff exits 0 after writing a
nonempty patch; attribute stamping succeeds. -/
def envC8 : Env :=
  ⟨some "fixed-bytes", FfmpegExit.exited 0, 0, some "PATCH-BYTES", "", 0, 0, 420, none, true, 5⟩

/-- Witness for C8 at a concrete successful bsdiff run. -/
theorem c8_generate_patch_success_postconditions_witness :
    patchFileName "/movies/a.mp4" 5 ".patch"
      = patchFileName "/movies/a.mp4" (envC8.timestamp) (patch_ext_for "bsdiff")
    ∧ ∃ pfd, gpFsAt (generate_patch envC8 "bsdiff" fsC7 "/movies/a.mp4"
          "/movies/a.patched.mp4") (patchFileName "/movies/a.mp4" 5 ".patch")
        = some pfd
      ∧ pfd.content.length ≠ 0
      ∧ pfd.uid = 1000 ∧ pfd.gid = 1000
      ∧ pfd.mode = Nat.land 493 rwMask := by
  have h := c8_generate_patch_success_postconditions envC8 "bsdiff" fsC7
    "/movies/a.mp4" "/movies/a.patched.mp4" ⟨"orig-bytes", 1000, 1000, 493⟩
    (patchFileName "/movies/a.mp4" 5 ".patch") (by decide) (by decide)
  exact h

/-- When `generate_patch` returns a path, it is the timestamped patch
filename built on line 93. -/
theorem generate_patch_ok_name (env : Env) (patch_tool : String) (fs : FS)
    (original_file patched_file p : String) (fs1 : FS) (ofd : FileData)
    (ho : fs original_file = some ofd)
    (h : generate_patch env patch_tool fs original_file patched_file
      = Except.ok (some p, fs1)) :
    p = patchFileName original_file env.timestamp (patch_ext_for patch_tool) := by
  have hgp : generate_patch env patch_tool fs original_file patched_file
      = Except.ok (generate_patch_body env patch_tool fs (statOf ofd)
          (patchFileName original_file env.timestamp (patch_ext_for patch_tool))) := by
    unfold generate_patch; rw [ho]
  rw [hgp] at h
  have h2 := Except.ok.inj h
  unfold generate_patch_body at h2
  split at h2
  · exact absurd ((Prod.mk.injEq _ _ _ _).mp h2).1 (by simp)
  · split at h2
    · exact absurd ((Prod.mk.injEq _ _ _ _).mp h2).1 (by simp)
    · split at h2
      · exact absurd ((Prod.mk.injEq _ _ _ _).mp h2).1 (by simp)
      · split at h2
        · exact absurd ((Prod.mk.injEq _ _ _ _).mp h2).1 (by simp)
        · exact (Option.some.inj ((Prod.mk.injEq _ _ _ _).mp h2).1).symm

/-- Claim C9: for a successfully processed file, the owner id, group id
and read/write permission bits after the swap equal the snapshot taken
before the transform; the attribute mask `0o666` drops execute and
special bits.  And `copy_file_attributes` propagates a `PermissionError`
from `os.chown`/`os.chmod` instead of swallowing it. -/
theorem c9_attribute_preservation (env : Env) (st : PState) (file_path : String)
    (target_gid : Option Nat) (patch_tool : String) (fd : FileData) (out p : String)
    (hnotproc : ledgerContains st.processed_files file_path = false)
    (hext : extension_ok file_path = true)
    (hdisk : st.fs file_path = some fd)
    (hgid : ∀ g, target_gid = some g → fd.gid = g)
    (hexit : env.ffmpegExit = FfmpegExit.exited 0)
    (hwrites : env.ffmpegWrites = some out)
    (hgenr : gpResult (generate_patch env patch_tool
        (fsAfterFfmpeg env st.fs (with_patched_suffix file_path)) file_path
        (with_patched_suffix file_path)) = some (some p))
    (hchown : env.chownFail = none)
    (hsave : env.saveOk = true)
    (hne1 : file_path ≠ with_patched_suffix file_path)
    (hne2 : file_path ≠ patchFileName file_path env.timestamp (patch_ext_for patch_tool))
    (hne3 : with_patched_suffix file_path
      ≠ patchFileName file_path env.timestamp (patch_ext_for patch_tool)) :
    ((process_file env st file_path target_gid patch_tool).1 = Outcome.success
      ∧ (process_file env st file_path target_gid patch_tool).2.fs file_path
          = some ⟨out, fd.uid, fd.gid, Nat.land fd.mode rwMask⟩)
    ∧ ∀ (env2 : Env) (fs : FS) (dst : String) (ostat : Stat) (d : FileData),
        env2.chownFail = some PyError.permissionError → fs dst = some d →
        copy_file_attributes env2 fs dst ostat
          = Except.error PyError.permissionError := by
  have hgm : gidMismatch target_gid fd = false := by
    cases target_gid with
    | none => rfl
    | some g => simp [gidMismatch, hgid g rfl]
  have hred : process_file env st file_path target_gid patch_tool
      = process_file_main env st file_path fd patch_tool := by
    simp [process_file, hnotproc, hext, hdisk, hgm]
  constructor
  · rw [hred]
    unfold process_file_main
    dsimp only
    split
    · next hT => rw [hexit] at hT; cases hT
    · next code hE =>
      have hc0 : code = 0 := by rw [hexit] at hE; injection hE with h1; exact h1.symm
      subst hc0
      rw [if_neg (by decide : ¬ ((0 : Int) ≠ 0))]
      cases hge : generate_patch env patch_tool
          (fsAfterFfmpeg env st.fs (with_patched_suffix file_path)) file_path
          (with_patched_suffix file_path) with
      | error e => rw [hge] at hgenr; simp [gpResult] at hgenr
      | ok rp =>
        obtain ⟨r, fs1⟩ := rp
        rw [hge] at hgenr
        simp only [gpResult] at hgenr
        have hr : r = some p := Option.some.inj hgenr
        subst hr
        simp only [hge]
        have h1 : fs1 file_path = some fd := by
          rw [generate_patch_frame env patch_tool _ file_path (with_patched_suffix file_path)
            (some p) fs1 hge file_path hne2]
          rw [fsAfterFfmpeg_other env st.fs _ file_path hne1]
          exact hdisk
        have h2 : fsDel fs1 file_path (with_patched_suffix file_path)
            = some ⟨out, env.newUid, env.newGid, env.newMode⟩ := by
          rw [fsDel_other _ _ _ (Ne.symm hne1)]
          rw [generate_patch_frame env patch_tool _ file_path (with_patched_suffix file_path)
            (some p) fs1 hge (with_patched_suffix file_path) hne3]
          unfold fsAfterFfmpeg
          rw [hwrites]
          exact fsSet_self _ _ _
        simp only [h1, h2]
        have h3 : copy_file_attributes env
            (fsSet (fsDel (fsDel fs1 file_path) (with_patched_suffix file_path)) file_path
              ⟨out, env.newUid, env.newGid, env.newMode⟩) file_path (statOf fd)
            = Except.ok (fsSet
                (fsSet (fsDel (fsDel fs1 file_path) (with_patched_suffix file_path)) file_path
                  ⟨out, env.newUid, env.newGid, env.newMode⟩) file_path
                ⟨out, (statOf fd).st_uid, (statOf fd).st_gid,
                  Nat.land (statOf fd).st_mode rwMask⟩) := by
          unfold copy_file_attributes
          rw [fsSet_self, hchown]
        simp only [h3, hsave, if_true]
        exact ⟨trivial, fsSet_self _ _ _⟩
  · intro env2 fs dst ostat d hcf hd
    simp [copy_file_attributes, hd, hcf]

/-- Environment for the C9 witness: ffmpeg succeeds, bsdiff produces a
nonempty patch, attribute operations and the ledger write succeed. -/
def envC9 : Env :=
  ⟨some "fixed-bytes", FfmpegExit.exited 0, 0, some "PATCH-BYTES", "", 0, 0, 420, none, true, 5⟩

/-- State for the C9 witness: one eligible movie file owned 1000:1000
with mode 0o755 (493). -/
def stC9 : PState :=
  ⟨fun q => if q = "/movies/a.mp4" then some ⟨"orig-bytes", 1000, 1000, 493⟩ else none,
   [], none⟩

/-- Witness for C9 at a concrete successful run: the swapped file keeps
owner 1000, group 1000, and mode `493 & 0o666 = 0o644`. -/
theorem c9_attribute_preservation_witness :
    ((process_file envC9 stC9 "/movies/a.mp4" none "bsdiff").1 = Outcome.success
      ∧ (process_file envC9 stC9 "/movies/a.mp4" none "bsdiff").2.fs "/movies/a.mp4"
          = some ⟨"fixed-bytes", 1000, 1000, Nat.land 493 rwMask⟩)
    ∧ ∀ (env2 : Env) (fs : FS) (dst : String) (ostat : Stat) (d : FileData),
        env2.chownFail = some PyError.permissionError → fs dst = some d →
        copy_file_attributes env2 fs dst ostat
          = Except.error PyError.permissionError :=
  c9_attribute_preservation envC9 stC9 "/movies/a.mp4" none "bsdiff"
    ⟨"orig-bytes", 1000, 1000, 493⟩ "fixed-bytes" "/movies/a.mp4.5.patch"
    (by decide) (by decide) (by decide) (fun g hg => Option.noConfusion hg)
    (by decide) (by decide) (by decide) (by decide) (by decide)
    (by decide) (by decide) (by decide)

/-- Claim C4 (amended): when patch generation fails after a successful
transform, the original file is untouched, the temporary transformed
file is removed, and the ledger is neither updated nor persisted; no
path other than the temporary output and the timestamped patch path is
touched — but a patch artifact created by the patch tool before the
failure may remain on disk (see the counterexample). -/
theorem c4_patch_failure_cleanup (env : Env) (st : PState) (file_path : String)
    (target_gid : Option Nat) (patch_tool : String) (fd : FileData)
    (hnotproc : ledgerContains st.processed_files file_path = false)
    (hext : extension_ok file_path = true)
    (hdisk : st.fs file_path = some fd)
    (hgid : ∀ g, target_gid = some g → fd.gid = g)
    (hexit : env.ffmpegExit = FfmpegExit.exited 0)
    (hgenr : gpResult (generate_patch env patch_tool
        (fsAfterFfmpeg env st.fs (with_patched_suffix file_path)) file_path
        (with_patched_suffix file_path)) = some none)
    (hne1 : file_path ≠ with_patched_suffix file_path)
    (hne2 : file_path ≠ patchFileName file_path env.timestamp (patch_ext_for patch_tool)) :
    (process_file env st file_path target_gid patch_tool).2.fs file_path = st.fs file_path
    ∧ (process_file env st file_path target_gid patch_tool).2.fs
        (with_patched_suffix file_path) = none
    ∧ (∀ q, q ≠ with_patched_suffix file_path →
        q ≠ patchFileName file_path env.timestamp (patch_ext_for patch_tool) →
        (process_file env st file_path target_gid patch_tool).2.fs q = st.fs q)
    ∧ (process_file env st file_path target_gid patch_tool).2.processed_files
        = st.processed_files
    ∧ (process_file env st file_path target_gid patch_tool).2.saved = st.saved := by
  have hgm : gidMismatch target_gid fd = false := by
    cases target_gid with
    | none => rfl
    | some g => simp [gidMismatch, hgid g rfl]
  have hred : process_file env st file_path target_gid patch_tool
      = process_file_main env st file_path fd patch_tool := by
    simp [process_file, hnotproc, hext, hdisk, hgm]
  rw [hred]
  unfold process_file_main
  dsimp only
  split
  · next hT => rw [hexit] at hT; cases hT
  · next code hE =>
    have hc0 : code = 0 := by rw [hexit] at hE; injection hE with h1; exact h1.symm
    subst hc0
    rw [if_neg (by decide : ¬ ((0 : Int) ≠ 0))]
    cases hge : generate_patch env patch_tool
        (fsAfterFfmpeg env st.fs (with_patched_suffix file_path)) file_path
        (with_patched_suffix file_path) with
    | error e => rw [hge] at hgenr; simp [gpResult] at hgenr
    | ok rp =>
      obtain ⟨r, fs1⟩ := rp
      rw [hge] at hgenr
      simp only [gpResult] at hgenr
      have hr : r = none := Option.some.inj hgenr
      subst hr
      simp only [hge]
      have hframe : ∀ q, q ≠ with_patched_suffix file_path →
          q ≠ patchFileName file_path env.timestamp (patch_ext_for patch_tool) →
          (exceptAnyHandler fs1 st.processed_files st.saved
            (with_patched_suffix file_path) (some none)).2.fs q = st.fs q := by
        intro q hq hq2
        rw [exceptAnyHandler_frame _ _ _ _ _ _ hq
          (fun p hp => Option.noConfusion (Option.some.inj hp))]
        rw [generate_patch_frame env patch_tool _ file_path (with_patched_suffix file_path)
          none fs1 hge q hq2]
        rw [fsAfterFfmpeg_other _ _ _ _ hq]
      exact ⟨hframe file_path hne1 hne2, exceptAnyHandler_patched_gone _ _ _ _ _, hframe,
        (exceptAnyHandler_ledger _ _ _ _ _).1, (exceptAnyHandler_ledger _ _ _ _ _).2⟩

/-- Environment for C4: ffmpeg succeeds, but bsdiff creates the patch
file empty and exits 0, so the nonzero-size verification on line 119
fails and `generate_patch` returns `None`. -/
def envC4 : Env :=
  ⟨some "fixed-bytes", FfmpegExit.exited 0, 0, some "", "", 0, 0, 420, none, true, 5⟩

/-- State for C4: one eligible, unprocessed movie file; no patch
artifact exists anywhere before the run. -/
def stC4 : PState :=
  ⟨fun q => if q = "/movies/a.mp4" then some ⟨"orig-bytes", 1000, 1000, 493⟩ else none,
   [], none⟩

/-- Counterexample to C4 as stated: patch generation fails (returns
`None`), yet after `process_file` the zero-byte patch artifact the tool
created is still on disk, so the filesystem is not in its
pre-processing state. -/
theorem c4_leftover_patch_counterexample :
    gpResult (generate_patch envC4 "bsdiff"
        (fsAfterFfmpeg envC4 stC4.fs (with_patched_suffix "/movies/a.mp4")) "/movies/a.mp4"
        (with_patched_suffix "/movies/a.mp4")) = some none
    ∧ stC4.fs "/movies/a.mp4.5.patch" = none
    ∧ (process_file envC4 stC4 "/movies/a.mp4" none "bsdiff").2.fs "/movies/a.mp4.5.patch"
        = some ⟨"", 0, 0, 420⟩ := by decide

/-- Witness for the amended C4 at the concrete empty-patch failure. -/
theorem c4_patch_failure_cleanup_witness :
    (process_file envC4 stC4 "/movies/a.mp4" none "bsdiff").2.fs "/movies/a.mp4"
        = stC4.fs "/movies/a.mp4"
    ∧ (process_file envC4 stC4 "/movies/a.mp4" none "bsdiff").2.fs
        (with_patched_suffix "/movies/a.mp4") = none
    ∧ (∀ q, q ≠ with_patched_suffix "/movies/a.mp4" →
        q ≠ patchFileName "/movies/a.mp4" (envC4.timestamp) (patch_ext_for "bsdiff") →
        (process_file envC4 stC4 "/movies/a.mp4" none "bsdiff").2.fs q
          = stC4.fs q)
    ∧ (process_file envC4 stC4 "/movies/a.mp4" none "bsdiff").2.processed_files
        = stC4.processed_files
    ∧ (process_file envC4 stC4 "/movies/a.mp4" none "bsdiff").2.saved = stC4.saved :=
  c4_patch_failure_cleanup envC4 stC4 "/movies/a.mp4" none "bsdiff"
    ⟨"orig-bytes", 1000, 1000, 493⟩
    (by decide) (by decide) (by decide) (fun g hg => Option.noConfusion hg)
    (by decide) (by decide) (by decide) (by decide)

end MovieFixer
